import Mathlib

/-
Verification development for the NPS rule-based post-classification
labeling engine (src/NPS_CODE/nps_processor.py).

Shallow embedding conventions:
- A classifier score mapping is a total function String → ℚ on the success
  path (pandas stores one column per taxonomy label), and String → Option ℚ
  when label presence matters (a missing column raises KeyError in pandas,
  modelled as an Except error).
- Response text is a List Char; pandas Series.str.contains(pat, case=False)
  on the plain-word patterns used here is case-insensitive substring
  containment, modelled by lower-casing both sides and checking infix.
- Int flag columns holding 0/1 are modelled as Bool.
- Each pandas statement df.loc[mask, col] = v is, per row, the conditional
  update "if mask then set col to v"; the sequential statements of
  process_classifications become sequential let-rebindings.
-/

namespace NPS

/-- ASCII lower-casing of a character list, modelling the case folding done
by pandas str.contains with case=False on the ASCII keywords of this code. -/
def lowerStr (s : List Char) : List Char := s.map Char.toLower

/-- Check that the first list is a leading segment of the second. -/
def isPrefOf : List Char → List Char → Bool
  | [], _ => true
  | _ :: _, [] => false
  | a :: as, b :: bs => a == b && isPrefOf as bs

/-- Check that the pattern occurs as a contiguous segment of the list. -/
def isSubOf (p : List Char) : List Char → Bool
  | [] => p.isEmpty
  | c :: cs => isPrefOf p (c :: cs) || isSubOf p cs

/-- Case-insensitive substring containment: the matching predicate behind
every Series.str.contains(pat, case=False, na=False) call of
process_classifications (all its patterns are regex-free plain words). -/
def cci (text pat : List Char) : Bool := isSubOf (lowerStr pat) (lowerStr text)

/-- The per-response flag columns created by process_classifications.
Fields are int 0/1 columns in the source, modelled as Bool. The four
sub-category fields are assigned only at lines 179-203 of the source; their
phase-1 placeholders are never read. -/
structure Flags where
  health_benefits_coverage : Bool
  provider_quality : Bool
  rcc_quality : Bool
  provider_wait_times : Bool
  medication_related : Bool
  customer_education : Bool
  provider_network : Bool
  tech_issues : Bool
  wait_time_related : Bool
  time_related : Bool
  access_related : Bool
  doctor_related : Bool
  nurse_related : Bool
  clinic_related : Bool
  delivery_related : Bool
  customer_service_related : Bool
  delay : Bool
  med_treat_drug_related : Bool
  medical_staff : Bool
  receptionist_front_desk : Bool
  facility_quality : Bool
  medication_quality : Bool

/-- Phase 1 threshold rules (nps_processor.py lines 119-164): each flag is
the OR of strict score comparisons. The source writes score > t with a
decimal threshold t; here each comparison is written decide (t < score), the
same relation, with t as an exact rational (see threshold_literals). -/
def phase1 (s : String → ℚ) : Flags where
  health_benefits_coverage :=
    decide ((mkRat 7 10) < s ("lack of vitamin c in customer plan benefits")) ||
    decide ((mkRat 9 10) < s ("lack of Paediatric care in customer plan benefits")) ||
    decide ((mkRat 9 10) < s ("Lack of medical benefits in customer plan")) ||
    decide ((mkRat 9 10) < s ("lack of typhoid drugs"))
  provider_quality :=
    decide ((mkRat 95 100) < s ("attitude of nurses")) ||
    decide ((mkRat 8 10) < s ("attitude of doctors")) ||
    decide ((mkRat 95 100) < s ("cleanliness of hosptials")) ||
    decide ((mkRat 95 100) < s ("medication quality")) ||
    decide ((mkRat 95 100) < s ("Front desk related")) ||
    decide ((mkRat 95 100) < s ("attitude of receptionist")) ||
    decide ((mkRat 95 100) < s ("place hygeine")) ||
    decide ((mkRat 95 100) < s ("quality of building")) ||
    decide ((mkRat 99 100) < s ("cleanliness")) ||
    decide ((mkRat 95 100) < s ("customer visiting the hospital")) ||
    decide ((mkRat 95 100) < s ("clinic related")) ||
    decide ((mkRat 95 100) < s ("lack of female coworkers"))
  rcc_quality :=
    decide ((mkRat 9 10) < s ("call center agents")) ||
    decide ((mkRat 95 100) < s ("response to phone calls")) ||
    decide ((mkRat 9 10) < s ("phone calls related"))
  provider_wait_times :=
    decide ((mkRat 9 10) < s ("waiting for doctors")) ||
    decide ((mkRat 9 10) < s ("long queues in hospital")) ||
    decide ((mkRat 99 100) < s ("delaying in getting test results"))
  medication_related :=
    decide ((mkRat 9 10) < s ("Unavailable drug for pick-up at pharmacy")) ||
    decide ((mkRat 9 10) < s ("medication pickup related"))
  customer_education :=
    decide ((mkRat 95 100) < s ("customer confusion about the benefits")) ||
    decide ((mkRat 95 100) < s ("lack of communication on changing providers on plan"))
  provider_network := decide ((mkRat 95 100) < s ("hospitals near the customer city"))
  tech_issues :=
    decide ((mkRat 95 100) < s ("internet work issue")) ||
    decide ((mkRat 95 100) < s ("app dysfunction"))
  wait_time_related := decide ((mkRat 99 100) < s ("waiting time"))
  time_related := decide ((mkRat 99 100) < s ("time related"))
  access_related := decide ((mkRat 99 100) < s ("access related"))
  doctor_related := decide ((mkRat 99 100) < s ("doctor related"))
  nurse_related := decide ((mkRat 99 100) < s ("nurse related"))
  clinic_related := decide ((mkRat 99 100) < s ("clinic related"))
  delivery_related := decide ((mkRat 98 100) < s ("delivery related"))
  customer_service_related := decide ((mkRat 99 100) < s ("customer service"))
  delay := decide ((mkRat 99 100) < s ("delay"))
  med_treat_drug_related := decide ((mkRat 9 10) < s ("medication, treatment, or drug related"))
  medical_staff := false
  receptionist_front_desk := false
  facility_quality := false
  medication_quality := false

/-- Overwrite rules of nps_processor.py lines 166-175 (spec rules 1-7):
forced provider_quality and rcc_quality values. -/
def rulesA (text : List Char) (f : Flags) : Flags :=
  let f := if f.med_treat_drug_related && !f.delivery_related then { f with provider_quality := true } else f
  let f := if f.medication_related && !f.delivery_related then { f with provider_quality := true } else f
  let f := if cci text ("customer service".toList) then { f with rcc_quality := true } else f
  let f := if cci text ("mosquitoes".toList) then { f with provider_quality := true } else f
  let f := if cci text ("during my visit".toList) then { f with provider_quality := true } else f
  let f := if cci text ("during my visit".toList) then { f with rcc_quality := false } else f
  let f := if f.doctor_related then { f with provider_quality := true } else f
  let f := if cci text ("gym".toList) then { f with provider_quality := true } else f
  let f := if cci text ("gym".toList) then { f with rcc_quality := false } else f
  f

/-- Overwrite rules of nps_processor.py lines 176-177 (spec rules 8-9):
forced provider_wait_times values; rule 9 reads the rcc_quality value left
by the rules of lines 166-175. -/
def rulesB (f : Flags) : Flags :=
  let f := if f.access_related && f.time_related then { f with provider_wait_times := true } else f
  let f := if f.delay && !f.rcc_quality then { f with provider_wait_times := true } else f
  f

/-- Medical_Staff block, nps_processor.py lines 179-187: threshold OR plus
the substring rules of spec rule 10. -/
def staffBlock (text : List Char) (s : String → ℚ) (f : Flags) : Flags :=
  let v :=
    decide ((mkRat 9 10) < s ("attitude of doctors")) ||
    decide ((mkRat 9 10) < s ("attitude of nurses")) ||
    f.doctor_related
  let f := { f with medical_staff := v }
  let f := if cci text ("doctors".toList) then { f with medical_staff := true } else f
  let f := if cci text ("nurse".toList) then { f with medical_staff := true } else f
  let f := if cci text ("dentist".toList) then { f with medical_staff := true } else f
  let f := if cci text ("staff".toList) then { f with medical_staff := true } else f
  let f := if cci text ("massage".toList) then { f with medical_staff := true } else f
  f

/-- Receptionist_Front_Desk block, nps_processor.py lines 189-190. -/
def receptionBlock (s : String → ℚ) (f : Flags) : Flags :=
  let v :=
    decide ((mkRat 9 10) < s ("attitude of receptionist")) ||
    decide ((mkRat 95 100) < s ("Front desk related"))
  { f with receptionist_front_desk := v }

/-- Facility Quality block, nps_processor.py lines 192-200: threshold OR
plus the substring rules of spec rule 11. -/
def facilityBlock (text : List Char) (s : String → ℚ) (f : Flags) : Flags :=
  let v :=
    decide ((mkRat 98 100) < s ("quality of building")) ||
    decide ((mkRat 98 100) < s ("place hygeine")) ||
    decide ((mkRat 98 100) < s ("cleanliness of hosptials"))
  let f := { f with facility_quality := v }
  let f := if cci text ("ambience".toList) then { f with facility_quality := true } else f
  let f := if cci text ("welcome environment".toList) then { f with facility_quality := true } else f
  let f := if cci text ("clean".toList) then { f with facility_quality := true } else f
  let f := if cci text ("facilities".toList) then { f with facility_quality := true } else f
  let f := if cci text ("empathy".toList) then { f with facility_quality := true } else f
  let f := if cci text ("hospital".toList) then { f with facility_quality := true } else f
  f

/-- Medication_Quality block, nps_processor.py lines 202-203 (spec rule 12). -/
def medqualBlock (text : List Char) (s : String → ℚ) (f : Flags) : Flags :=
  let f := { f with medication_quality := decide ((mkRat 95 100) < s ("medication quality")) }
  let f := if cci text ("treatment".toList) then { f with medication_quality := true } else f
  f

/-- provider_wait_times recompute block, nps_processor.py lines 205-210:
spec rule 13 (unconditional recompute as time_related AND
medication_related) followed by the five substring rules of spec rule 14. -/
def pwtBlock (text : List Char) (f : Flags) : Flags :=
  let f := { f with provider_wait_times := f.time_related && f.medication_related }
  let f := if cci text ("delay".toList) then { f with provider_wait_times := true } else f
  let f := if cci text ("computerized process".toList) then { f with provider_wait_times := true } else f
  let f := if cci text ("code".toList) then { f with provider_wait_times := true } else f
  let f := if cci text ("approved".toList) then { f with provider_wait_times := true } else f
  let f := if cci text ("Timelineness".toList) then { f with provider_wait_times := true } else f
  f

/-- Final overwrite, nps_processor.py line 212 (spec rule 15). -/
def lackBlock (text : List Char) (f : Flags) : Flags :=
  if cci text ("lack".toList) then { f with health_benefits_coverage := true } else f

/-- The Flag Deriver: all flag computations of process_classifications in
source order (lines 119-212) for one response row. -/
def deriveFlags (text : List Char) (s : String → ℚ) : Flags :=
  lackBlock text (pwtBlock text (medqualBlock text s (facilityBlock text s
    (receptionBlock s (staffBlock text s (rulesB (rulesA text (phase1 s))))))))

/-- Disjunction of the five substring conditions of nps_processor.py lines
206-210 (spec rule 14). -/
def rule14Match (text : List Char) : Bool :=
  cci text ("delay".toList) || cci text ("computerized process".toList) ||
  cci text ("code".toList) || cci text ("approved".toList) ||
  cci text ("Timelineness".toList)

/-- The helper find_columns_with_one (lines 222-224): names of columns whose
value is 1, joined by comma and space. -/
def findColumnsWithOne (cols : List (String × Bool)) : String :=
  String.intercalate (", ") (cols.filterMap fun p => if p.2 then some p.1 else none)

/-- The main-category columns in the order of line 226-227, with the column
name strings used by the source. -/
def mainCols (f : Flags) : List (String × Bool) :=
  [(("Health_benefits_coverage"), f.health_benefits_coverage),
   (("provider_quality"), f.provider_quality),
   (("RCC_quality"), f.rcc_quality),
   (("provider_wait_times"), f.provider_wait_times),
   (("customer_education"), f.customer_education),
   (("provider_network"), f.provider_network),
   (("tech_issues"), f.tech_issues)]

/-- The sub-category columns in the order of line 228. -/
def subCols (f : Flags) : List (String × Bool) :=
  [(("Medical_Staff"), f.medical_staff),
   (("Receptionist_Front_Desk"), f.receptionist_front_desk),
   (("Facility Quality"), f.facility_quality),
   (("Medication_Quality"), f.medication_quality)]

/-- Topic Reducer, main topic (lines 226-227). -/
def mainTopic (f : Flags) : String := findColumnsWithOne (mainCols f)

/-- Topic Reducer, sub topic before the sentinel substitution (line 228). -/
def subTopicRaw (f : Flags) : String := findColumnsWithOne (subCols f)

/-- Sub topic after the replacement of the empty string by the sentinel
generic (line 231). -/
def subTopicFinal (f : Flags) : String :=
  if subTopicRaw f = ("") then ("generic") else subTopicRaw f

/-- The main topic as a function of only the seven main-category flags. -/
def mainTopicOf (b1 b2 b3 b4 b5 b6 b7 : Bool) : String :=
  findColumnsWithOne
    [(("Health_benefits_coverage"), b1), (("provider_quality"), b2), (("RCC_quality"), b3),
     (("provider_wait_times"), b4), (("customer_education"), b5), (("provider_network"), b6),
     (("tech_issues"), b7)]

/-- The final sub topic as a function of only the four sub-category flags. -/
def subTopicFinalOf (b1 b2 b3 b4 : Bool) : String :=
  let raw := findColumnsWithOne
    [(("Medical_Staff"), b1), (("Receptionist_Front_Desk"), b2), (("Facility Quality"), b3),
     (("Medication_Quality"), b4)]
  if raw = ("") then ("generic") else raw

/-- One input row of a chunk (the columns of nps_data_qa). -/
structure Row where
  text : List Char
  provider_name : String
  type_service : String

/-- One row of detailed_scores_df: the response text plus the score dict
returned by the classifier (keys are the labels the classifier was given). -/
structure Scored where
  text : List Char
  scores : String → Option ℚ

/-- The external classifier collaborator: given a row index and its text,
either a score mapping or none (the call raised). -/
def Clf := Nat → List Char → Option (String → Option ℚ)

/-- Python whitespace test for the characters relevant here (str.strip with
no argument removes these, so a string is falsy after strip iff all its
characters are whitespace). -/
def pyIsSpace (c : Char) : Bool :=
  c == ' ' || c == '\t' || c == '\n' || c == '\r' || c == '\x0b' || c == '\x0c'

/-- The test "not input_text.strip()" of line 102: text that is empty or
whitespace-only. -/
def pyBlank (t : List Char) : Bool := t.all pyIsSpace

/-- classify_responses (lines 98-112) over the rows of one chunk, starting
at row index i: returns the detailed scores list and the error log (index
and text of each row whose classifier call raised). Blank rows are skipped
without calling the classifier; a failed call is logged and the row is
dropped, and iteration continues with the next row. -/
def classifyAux (clf : Clf) : Nat → List Row → List Scored × List (Nat × List Char)
  | _, [] => ([], [])
  | i, r :: rs =>
    let rest := classifyAux clf (i + 1) rs
    if pyBlank r.text then rest
    else
      match clf i r.text with
      | some m => (⟨r.text, m⟩ :: rest.1, rest.2)
      | none => (rest.1, (i, r.text) :: rest.2)

/-- The 38 distinct taxonomy labels read by process_classifications
(lines 119-164, in order of first access). Reading any of them from a score
table that lacks it raises KeyError in pandas. -/
def referencedLabels : List String :=
  [("lack of vitamin c in customer plan benefits"),
   ("lack of Paediatric care in customer plan benefits"),
   ("Lack of medical benefits in customer plan"),
   ("lack of typhoid drugs"),
   ("attitude of nurses"),
   ("attitude of doctors"),
   ("cleanliness of hosptials"),
   ("medication quality"),
   ("Front desk related"),
   ("attitude of receptionist"),
   ("place hygeine"),
   ("quality of building"),
   ("cleanliness"),
   ("customer visiting the hospital"),
   ("clinic related"),
   ("lack of female coworkers"),
   ("call center agents"),
   ("response to phone calls"),
   ("phone calls related"),
   ("waiting for doctors"),
   ("long queues in hospital"),
   ("delaying in getting test results"),
   ("Unavailable drug for pick-up at pharmacy"),
   ("medication pickup related"),
   ("customer confusion about the benefits"),
   ("lack of communication on changing providers on plan"),
   ("hospitals near the customer city"),
   ("internet work issue"),
   ("app dysfunction"),
   ("waiting time"),
   ("time related"),
   ("access related"),
   ("doctor related"),
   ("nurse related"),
   ("delivery related"),
   ("customer service"),
   ("delay"),
   ("medication, treatment, or drug related")]

/-- Flag derivation over a score dict that may lack labels: if every label
referenced by the threshold table is present the derivation succeeds,
otherwise the column read raises (modelled as Except error, the pandas
KeyError on a missing column). -/
def deriveChecked (text : List Char) (m : String → Option ℚ) : Except Unit Flags :=
  if referencedLabels.all fun l => (m l).isSome then
    .ok (deriveFlags text fun l => (m l).getD 0)
  else .error ()

/-- Derive flags for every scored row, propagating the first failure. -/
def deriveAll : List Scored → Except Unit (List (List Char × Flags))
  | [] => .ok []
  | x :: xs =>
    match deriveChecked x.text x.scores with
    | .error e => .error e
    | .ok f =>
      match deriveAll xs with
      | .error e => .error e
      | .ok rest => .ok ((x.text, f) :: rest)

/-- The merge of line 220: pandas inner merge of the chunk rows (left, the
identifying columns) with the derived flag rows (right) on CUSTOMER_RESPONSE
equality, in left-major order. -/
def mergeOnText (left : List Row) (right : List (List Char × Flags)) : List (Row × Flags) :=
  left.flatMap fun r => (right.filter fun q => q.1 == r.text).map fun q => (r, q.2)

/-- One output row of final_df (line 230). -/
structure LabeledRecord where
  text : List Char
  main_topic : String
  sub_topic : String
  type_service : String

/-- process_classifications (lines 114-232) for one chunk: fails when the
score table is empty (a column read on a frame with no columns raises) or
when a referenced label is missing from a score dict; otherwise merges the
derived flags onto the chunk rows and reduces them to topics. -/
def processClassifications (scored : List Scored) (rows : List Row) :
    Except Unit (List LabeledRecord) :=
  if scored.isEmpty then .error ()
  else
    match deriveAll scored with
    | .error e => .error e
    | .ok qa =>
      .ok ((mergeOnText rows qa).map fun p =>
        { text := p.1.text
          main_topic := mainTopic p.2
          sub_topic := subTopicFinal p.2
          type_service := p.1.type_service })

/-- Split the input rows into consecutive chunks of size n, as iloc slicing
in run_in_chunks does (a final shorter chunk is kept). -/
def chunksOf (n : Nat) : List Row → List (List Row)
  | [] => []
  | r :: rs => (r :: rs.take (n - 1)) :: chunksOf n (rs.drop (n - 1))
termination_by l => l.length
decreasing_by simp only [List.length_drop, List.length_cons]; omega

/-- run_in_chunks (lines 248-256) from a given start index: classify each
chunk, process it, and save its output; an exception from processing aborts
the run, and outputs saved by earlier chunks remain. Returns the list of
saved chunk outputs from this point on and whether the run aborted. -/
def runChunksAux (clf : Clf) : Nat → List (List Row) → List (List LabeledRecord) × Bool
  | _, [] => ([], false)
  | i, c :: cs =>
    match processClassifications (classifyAux clf i c).1 c with
    | .error _ => ([], true)
    | .ok out =>
      let rest := runChunksAux clf (i + c.length) cs
      (out :: rest.1, rest.2)

/-- The whole chunked run over the input rows. -/
def runInChunks (clf : Clf) (rows : List Row) (n : Nat) :
    List (List LabeledRecord) × Bool :=
  runChunksAux clf 0 (chunksOf n rows)

/-- The decimal threshold literals of the source denote exactly the
rationals used in phase1 and the later blocks. -/
theorem threshold_literals :
    (0.7 : ℚ) = mkRat 7 10 ∧ (0.8 : ℚ) = mkRat 8 10 ∧ (0.9 : ℚ) = mkRat 9 10 ∧
    (0.95 : ℚ) = mkRat 95 100 ∧ (0.98 : ℚ) = mkRat 98 100 ∧ (0.99 : ℚ) = mkRat 99 100 := by
  norm_num [Rat.mkRat_eq_div]

theorem rulesA_time (text : List Char) (f : Flags) :
    (rulesA text f).time_related = f.time_related := by
  simp [rulesA, apply_ite Flags.time_related]

theorem rulesA_med (text : List Char) (f : Flags) :
    (rulesA text f).medication_related = f.medication_related := by
  simp [rulesA, apply_ite Flags.medication_related]

theorem rulesB_time (f : Flags) : (rulesB f).time_related = f.time_related := by
  simp [rulesB, apply_ite Flags.time_related]

theorem rulesB_med (f : Flags) : (rulesB f).medication_related = f.medication_related := by
  simp [rulesB, apply_ite Flags.medication_related]

theorem staffBlock_time (text : List Char) (s : String → ℚ) (f : Flags) :
    (staffBlock text s f).time_related = f.time_related := by
  simp [staffBlock, apply_ite Flags.time_related]

theorem staffBlock_med (text : List Char) (s : String → ℚ) (f : Flags) :
    (staffBlock text s f).medication_related = f.medication_related := by
  simp [staffBlock, apply_ite Flags.medication_related]

theorem receptionBlock_time (s : String → ℚ) (f : Flags) :
    (receptionBlock s f).time_related = f.time_related := rfl

theorem receptionBlock_med (s : String → ℚ) (f : Flags) :
    (receptionBlock s f).medication_related = f.medication_related := rfl

theorem facilityBlock_time (text : List Char) (s : String → ℚ) (f : Flags) :
    (facilityBlock text s f).time_related = f.time_related := by
  simp [facilityBlock, apply_ite Flags.time_related]

theorem facilityBlock_med (text : List Char) (s : String → ℚ) (f : Flags) :
    (facilityBlock text s f).medication_related = f.medication_related := by
  simp [facilityBlock, apply_ite Flags.medication_related]

theorem medqualBlock_time (text : List Char) (s : String → ℚ) (f : Flags) :
    (medqualBlock text s f).time_related = f.time_related := by
  simp [medqualBlock, apply_ite Flags.time_related]

theorem medqualBlock_med (text : List Char) (s : String → ℚ) (f : Flags) :
    (medqualBlock text s f).medication_related = f.medication_related := by
  simp [medqualBlock, apply_ite Flags.medication_related]

theorem lackBlock_pwt (text : List Char) (f : Flags) :
    (lackBlock text f).provider_wait_times = f.provider_wait_times := by
  simp [lackBlock, apply_ite Flags.provider_wait_times]

theorem pwtBlock_pwt (text : List Char) (f : Flags) :
    (pwtBlock text f).provider_wait_times =
      ((f.time_related && f.medication_related) || rule14Match text) := by
  unfold pwtBlock rule14Match
  cases cci text ("delay".toList) <;>
    cases cci text ("computerized process".toList) <;>
    cases cci text ("code".toList) <;>
    cases cci text ("approved".toList) <;>
    cases cci text ("Timelineness".toList) <;> simp

/-- The final provider_wait_times of the Flag Deriver: the rule-13 recompute
from the phase-1 auxiliary flags, ORed with the rule-14 substring overrides;
nothing earlier in the cascade survives into it. -/
theorem pwt_final (text : List Char) (s : String → ℚ) :
    (deriveFlags text s).provider_wait_times =
      (((phase1 s).time_related && (phase1 s).medication_related) || rule14Match text) := by
  unfold deriveFlags
  rw [lackBlock_pwt, pwtBlock_pwt, medqualBlock_time, medqualBlock_med,
    facilityBlock_time, facilityBlock_med, receptionBlock_time, receptionBlock_med,
    staffBlock_time, staffBlock_med, rulesB_time, rulesB_med, rulesA_time, rulesA_med]

theorem isPrefOf_self_append (p y : List Char) : isPrefOf p (p ++ y) = true := by
  induction p with
  | nil => simp [isPrefOf]
  | cons a as ih => simp [isPrefOf, ih]

theorem isSubOf_self_append (p y : List Char) : isSubOf p (p ++ y) = true := by
  cases p with
  | nil => cases y <;> simp [isSubOf, isPrefOf]
  | cons a as =>
    have h := isPrefOf_self_append (a :: as) y
    simp only [List.cons_append] at h
    simp [isSubOf, h]

theorem isSubOf_append_left (x p y : List Char) : isSubOf p (x ++ p ++ y) = true := by
  induction x with
  | nil => simpa using isSubOf_self_append p y
  | cons c x ih => simp only [List.cons_append, isSubOf, List.append_eq, ih, Bool.or_true]

/-- Any case variant of a keyword occurring as a contiguous segment of the
text, with arbitrary surroundings, satisfies the matching predicate. -/
theorem cci_of_seg (a kv b k : List Char) (h : lowerStr kv = lowerStr k) :
    cci (a ++ kv ++ b) k = true := by
  unfold cci lowerStr at *
  rw [List.map_append, List.map_append, ← h]
  exact isSubOf_append_left _ _ _

/-- C1: Phase-2 rule 13 unconditionally recomputes provider_wait_times as
time_related AND medication_related, overwriting the values forced by rules
8 and 9: when rule 9 fired (delay flag set and rcc_quality 0 at that point)
but time_related AND medication_related is false, the final
provider_wait_times equals the rule-14 substring test, so it is 0 unless one
of the rule-14 keywords occurs in the text, in which case it is 1. -/
theorem rule13_overwrites_rule9 (text : List Char) (s : String → ℚ)
    (_h9 : (rulesA text (phase1 s)).delay = true ∧ (rulesA text (phase1 s)).rcc_quality = false)
    (h13 : ((phase1 s).time_related && (phase1 s).medication_related) = false) :
    (deriveFlags text s).provider_wait_times = rule14Match text := by
  rw [pwt_final, h13, Bool.false_or]

theorem rule13_overwrites_rule9_witness :
    (deriveFlags ("zzz".toList) (fun l => if l = ("delay" : String) then (1 : ℚ) else 0)).provider_wait_times
        = rule14Match ("zzz".toList) ∧
    rule14Match ("zzz".toList) = false :=
  ⟨rule13_overwrites_rule9 ("zzz".toList) (fun l => if l = ("delay" : String) then (1 : ℚ) else 0)
      ⟨by decide, by decide⟩ (by decide),
   by decide⟩

/-- C5: every Phase-2 text rule matches case-insensitively on substring
containment: any case variant of a keyword, occurring inside a larger word
or next to punctuation, satisfies the shared matching predicate cci; and for
the keyword approved of rule 14 such a match makes the Flag Deriver force
provider_wait_times to 1 for every score mapping. -/
theorem substring_rules_case_insensitive :
    (∀ (a kv b k : List Char), lowerStr kv = lowerStr k → cci (a ++ kv ++ b) k = true) ∧
    (∀ (s : String → ℚ) (a kv b : List Char), lowerStr kv = lowerStr ("approved".toList) →
      (deriveFlags (a ++ kv ++ b) s).provider_wait_times = true) := by
  refine ⟨cci_of_seg, fun s a kv b h => ?_⟩
  rw [pwt_final]
  unfold rule14Match
  rw [cci_of_seg a kv b _ h]
  simp

theorem substring_rules_case_insensitive_witness :
    cci (([] : List Char) ++ ("Approved".toList) ++ ("!".toList)) ("approved".toList) = true ∧
    (deriveFlags (([] : List Char) ++ ("Approved".toList) ++ ("!".toList))
        (fun _ => (0 : ℚ))).provider_wait_times = true :=
  ⟨substring_rules_case_insensitive.1 [] ("Approved".toList) ("!".toList) ("approved".toList)
      (by decide),
   substring_rules_case_insensitive.2 (fun _ => (0 : ℚ)) [] ("Approved".toList) ("!".toList)
      (by decide)⟩

/-- Threshold table data for the phase-1 flags (spec section 4.1). -/
def tblHealth : List (String × ℚ) :=
  [(("lack of vitamin c in customer plan benefits"), mkRat 7 10),
   (("lack of Paediatric care in customer plan benefits"), mkRat 9 10),
   (("Lack of medical benefits in customer plan"), mkRat 9 10),
   (("lack of typhoid drugs"), mkRat 9 10)]

def tblProviderQuality : List (String × ℚ) :=
  [(("attitude of nurses"), mkRat 95 100),
   (("attitude of doctors"), mkRat 8 10),
   (("cleanliness of hosptials"), mkRat 95 100),
   (("medication quality"), mkRat 95 100),
   (("Front desk related"), mkRat 95 100),
   (("attitude of receptionist"), mkRat 95 100),
   (("place hygeine"), mkRat 95 100),
   (("quality of building"), mkRat 95 100),
   (("cleanliness"), mkRat 99 100),
   (("customer visiting the hospital"), mkRat 95 100),
   (("clinic related"), mkRat 95 100),
   (("lack of female coworkers"), mkRat 95 100)]

def tblRccQuality : List (String × ℚ) :=
  [(("call center agents"), mkRat 9 10),
   (("response to phone calls"), mkRat 95 100),
   (("phone calls related"), mkRat 9 10)]

def tblProviderWaitTimes : List (String × ℚ) :=
  [(("waiting for doctors"), mkRat 9 10),
   (("long queues in hospital"), mkRat 9 10),
   (("delaying in getting test results"), mkRat 99 100)]

def tblMedicationRelated : List (String × ℚ) :=
  [(("Unavailable drug for pick-up at pharmacy"), mkRat 9 10),
   (("medication pickup related"), mkRat 9 10)]

def tblCustomerEducation : List (String × ℚ) :=
  [(("customer confusion about the benefits"), mkRat 95 100),
   (("lack of communication on changing providers on plan"), mkRat 95 100)]

def tblProviderNetwork : List (String × ℚ) :=
  [(("hospitals near the customer city"), mkRat 95 100)]

def tblTechIssues : List (String × ℚ) :=
  [(("internet work issue"), mkRat 95 100), (("app dysfunction"), mkRat 95 100)]

def tblWaitTimeRelated : List (String × ℚ) := [(("waiting time"), mkRat 99 100)]

def tblTimeRelated : List (String × ℚ) := [(("time related"), mkRat 99 100)]

def tblAccessRelated : List (String × ℚ) := [(("access related"), mkRat 99 100)]

def tblDoctorRelated : List (String × ℚ) := [(("doctor related"), mkRat 99 100)]

def tblNurseRelated : List (String × ℚ) := [(("nurse related"), mkRat 99 100)]

def tblClinicRelated : List (String × ℚ) := [(("clinic related"), mkRat 99 100)]

def tblDeliveryRelated : List (String × ℚ) := [(("delivery related"), mkRat 98 100)]

def tblCustomerServiceRelated : List (String × ℚ) := [(("customer service"), mkRat 99 100)]

def tblDelay : List (String × ℚ) := [(("delay"), mkRat 99 100)]

def tblMedTreatDrugRelated : List (String × ℚ) :=
  [(("medication, treatment, or drug related"), mkRat 9 10)]

/-- A score mapping hits a threshold table when some listed label has a
score strictly above its threshold. -/
def scoreHits (s : String → ℚ) (tbl : List (String × ℚ)) : Bool :=
  tbl.any fun p => decide (p.2 < s p.1)

/-- C4: each phase-1 flag equals the OR, over its threshold table, of the
strict comparisons score greater than threshold; and, at the boundary, a
score exactly equal to the threshold does not set the flag (final conjunct,
at the vitamin-c example of the claim). -/
theorem phase1_threshold_spec (s : String → ℚ) :
    (phase1 s).health_benefits_coverage = scoreHits s tblHealth ∧
    (phase1 s).provider_quality = scoreHits s tblProviderQuality ∧
    (phase1 s).rcc_quality = scoreHits s tblRccQuality ∧
    (phase1 s).provider_wait_times = scoreHits s tblProviderWaitTimes ∧
    (phase1 s).medication_related = scoreHits s tblMedicationRelated ∧
    (phase1 s).customer_education = scoreHits s tblCustomerEducation ∧
    (phase1 s).provider_network = scoreHits s tblProviderNetwork ∧
    (phase1 s).tech_issues = scoreHits s tblTechIssues ∧
    (phase1 s).wait_time_related = scoreHits s tblWaitTimeRelated ∧
    (phase1 s).time_related = scoreHits s tblTimeRelated ∧
    (phase1 s).access_related = scoreHits s tblAccessRelated ∧
    (phase1 s).doctor_related = scoreHits s tblDoctorRelated ∧
    (phase1 s).nurse_related = scoreHits s tblNurseRelated ∧
    (phase1 s).clinic_related = scoreHits s tblClinicRelated ∧
    (phase1 s).delivery_related = scoreHits s tblDeliveryRelated ∧
    (phase1 s).customer_service_related = scoreHits s tblCustomerServiceRelated ∧
    (phase1 s).delay = scoreHits s tblDelay ∧
    (phase1 s).med_treat_drug_related = scoreHits s tblMedTreatDrugRelated ∧
    (phase1 (fun l => if l = ("lack of vitamin c in customer plan benefits" : String)
        then (mkRat 7 10) else 0)).health_benefits_coverage = false := by
  refine ⟨?_, ?_, ?_, ?_, ?_, ?_, ?_, ?_, ?_, ?_, ?_, ?_, ?_, ?_, ?_, ?_, ?_, ?_, by decide⟩
  all_goals simp [phase1, scoreHits, tblHealth, tblProviderQuality, tblRccQuality,
    tblProviderWaitTimes, tblMedicationRelated, tblCustomerEducation, tblProviderNetwork,
    tblTechIssues, tblWaitTimeRelated, tblTimeRelated, tblAccessRelated, tblDoctorRelated,
    tblNurseRelated, tblClinicRelated, tblDeliveryRelated, tblCustomerServiceRelated,
    tblDelay, tblMedTreatDrugRelated, Bool.or_assoc]

theorem filterMapOnes (cols : List (String × Bool)) :
    (cols.filterMap fun p => if p.2 then some p.1 else none) =
      (cols.filter fun p => p.2).map fun p => p.1 := by
  induction cols with
  | nil => rfl
  | cons p l ih => cases hp : p.2 <;> simp [hp, ih]

theorem mainTopic_eq_mainTopicOf (f : Flags) :
    mainTopic f = mainTopicOf f.health_benefits_coverage f.provider_quality f.rcc_quality
      f.provider_wait_times f.customer_education f.provider_network f.tech_issues := rfl

theorem subTopicFinal_eq_subTopicFinalOf (f : Flags) :
    subTopicFinal f = subTopicFinalOf f.medical_staff f.receptionist_front_desk
      f.facility_quality f.medication_quality := rfl

/-- C2: main_topic is exactly the comma-and-space join of the names of the
main-category flags that are set, in the fixed column order of line 226, and
it is the empty string exactly when none of the seven is set. -/
theorem main_topic_spec (f : Flags) :
    mainTopic f = String.intercalate (", ")
        (((mainCols f).filter fun p => p.2).map fun p => p.1) ∧
    (mainTopic f = ("") ↔ f.health_benefits_coverage = false ∧ f.provider_quality = false ∧
      f.rcc_quality = false ∧ f.provider_wait_times = false ∧ f.customer_education = false ∧
      f.provider_network = false ∧ f.tech_issues = false) := by
  constructor
  · rw [mainTopic, findColumnsWithOne, filterMapOnes]
  · rw [mainTopic_eq_mainTopicOf]
    have key : ∀ b1 b2 b3 b4 b5 b6 b7 : Bool,
        (mainTopicOf b1 b2 b3 b4 b5 b6 b7 = ("") ↔ b1 = false ∧ b2 = false ∧ b3 = false ∧
          b4 = false ∧ b5 = false ∧ b6 = false ∧ b7 = false) := by
      intro b1 b2 b3 b4 b5 b6 b7
      cases b1 <;> cases b2 <;> cases b3 <;> cases b4 <;> cases b5 <;> cases b6 <;> cases b7 <;>
        decide
    exact key _ _ _ _ _ _ _

/-- C3: sub_topic is the sentinel generic exactly when all four sub-category
flags are 0; otherwise it is the comma-and-space join of the names of the
set sub-category flags in the fixed column order of line 228. -/
theorem sub_topic_spec (f : Flags) :
    (subTopicFinal f = ("generic") ↔ f.medical_staff = false ∧
      f.receptionist_front_desk = false ∧ f.facility_quality = false ∧
      f.medication_quality = false) ∧
    subTopicFinal f = (if f.medical_staff = false ∧ f.receptionist_front_desk = false ∧
        f.facility_quality = false ∧ f.medication_quality = false then ("generic")
      else String.intercalate (", ")
        (((subCols f).filter fun p => p.2).map fun p => p.1)) := by
  have key1 : ∀ b1 b2 b3 b4 : Bool,
      (subTopicFinalOf b1 b2 b3 b4 = ("generic") ↔ b1 = false ∧ b2 = false ∧ b3 = false ∧
        b4 = false) := by
    intro b1 b2 b3 b4
    cases b1 <;> cases b2 <;> cases b3 <;> cases b4 <;> decide
  have key2 : ∀ b1 b2 b3 b4 : Bool,
      subTopicFinalOf b1 b2 b3 b4 = (if b1 = false ∧ b2 = false ∧ b3 = false ∧ b4 = false
        then ("generic")
        else String.intercalate (", ")
          ((([(("Medical_Staff"), b1), (("Receptionist_Front_Desk"), b2),
              (("Facility Quality"), b3), (("Medication_Quality"), b4)].filter
                fun p => p.2)).map fun p => p.1)) := by
    intro b1 b2 b3 b4
    cases b1 <;> cases b2 <;> cases b3 <;> cases b4 <;> decide
  constructor
  · rw [subTopicFinal_eq_subTopicFinalOf]
    exact key1 _ _ _ _
  · rw [subTopicFinal_eq_subTopicFinalOf]
    exact key2 _ _ _ _

theorem classifyAux_agree (clf clfB : Clf)
    (h : ∀ j t, pyBlank t = false → clf j t = clfB j t) :
    ∀ (i : Nat) (rows : List Row), classifyAux clf i rows = classifyAux clfB i rows := by
  intro i rows
  induction rows generalizing i with
  | nil => rfl
  | cons r rs ih =>
    simp only [classifyAux, ih (i + 1)]
    cases hb : pyBlank r.text with
    | true => rfl
    | false => rw [h i r.text hb]

theorem classifyAux_scored_nonblank (clf : Clf) :
    ∀ (i : Nat) (rows : List Row) (x : Scored), x ∈ (classifyAux clf i rows).1 →
      pyBlank x.text = false := by
  intro i rows
  induction rows generalizing i with
  | nil => intro x hx; simp [classifyAux] at hx
  | cons r rs ih =>
    intro x hx
    simp only [classifyAux] at hx
    cases hb : pyBlank r.text with
    | true => rw [hb] at hx; simp only [if_true] at hx; exact ih (i + 1) x hx
    | false =>
      rw [hb] at hx
      simp only [Bool.false_eq_true, if_false] at hx
      cases hc : clf i r.text with
      | none => rw [hc] at hx; exact ih (i + 1) x hx
      | some m =>
        rw [hc] at hx
        rcases List.mem_cons.mp hx with he | hm
        · subst he; exact hb
        · exact ih (i + 1) x hm

theorem classifyAux_log_nonblank (clf : Clf) :
    ∀ (i : Nat) (rows : List Row) (e : Nat × List Char), e ∈ (classifyAux clf i rows).2 →
      pyBlank e.2 = false := by
  intro i rows
  induction rows generalizing i with
  | nil => intro e he; simp [classifyAux] at he
  | cons r rs ih =>
    intro e he
    simp only [classifyAux] at he
    cases hb : pyBlank r.text with
    | true => rw [hb] at he; simp only [if_true] at he; exact ih (i + 1) e he
    | false =>
      rw [hb] at he
      simp only [Bool.false_eq_true, if_false] at he
      cases hc : clf i r.text with
      | some m => rw [hc] at he; exact ih (i + 1) e he
      | none =>
        rw [hc] at he
        rcases List.mem_cons.mp he with hee | hm
        · subst hee; exact hb
        · exact ih (i + 1) e hm

theorem classifyAux_append (clf : Clf) :
    ∀ (xs ys : List Row) (i : Nat),
      classifyAux clf i (xs ++ ys) =
        ((classifyAux clf i xs).1 ++ (classifyAux clf (i + xs.length) ys).1,
         (classifyAux clf i xs).2 ++ (classifyAux clf (i + xs.length) ys).2) := by
  intro xs
  induction xs with
  | nil => intro ys i; simp [classifyAux]
  | cons r rs ih =>
    intro ys i
    simp only [List.cons_append, classifyAux, List.append_eq, ih ys (i + 1), List.length_cons]
    have harith : i + 1 + rs.length = i + (rs.length + 1) := by omega
    rw [harith]
    cases hb : pyBlank r.text with
    | true => rfl
    | false =>
      cases hc : clf i r.text with
      | some m => rfl
      | none => rfl

theorem classifyAux_mem_of_success (clf : Clf) :
    ∀ (rows : List Row) (i j : Nat) (hj : j < rows.length) (m : String → Option ℚ),
      pyBlank (rows.get ⟨j, hj⟩).text = false →
      clf (i + j) ((rows.get ⟨j, hj⟩).text) = some m →
      Scored.mk (rows.get ⟨j, hj⟩).text m ∈ (classifyAux clf i rows).1 := by
  intro rows
  induction rows with
  | nil => intro i j hj; simp at hj
  | cons r rs ih =>
    intro i j hj m hb hc
    cases j with
    | zero =>
      simp only [List.get] at hb hc ⊢
      rw [Nat.add_zero] at hc
      simp only [classifyAux, hb, Bool.false_eq_true, if_false, hc]
      exact List.mem_cons_self _ _
    | succ j' =>
      simp only [List.get] at hb hc ⊢
      have harith : i + (j' + 1) = (i + 1) + j' := by omega
      rw [harith] at hc
      have hj2 : j' < rs.length := by
        have hj3 := hj
        simp only [List.length_cons] at hj3
        omega
      have hmem := ih (i + 1) j' hj2 m hb hc
      simp only [classifyAux]
      cases hb2 : pyBlank r.text with
      | true => exact hmem
      | false =>
        cases hc2 : clf i r.text with
        | some m2 => exact List.mem_cons_of_mem _ hmem
        | none => exact hmem

theorem classifyAux_scored_from_clf (clf : Clf) :
    ∀ (rows : List Row) (i : Nat) (x : Scored), x ∈ (classifyAux clf i rows).1 →
      ∃ j, clf j x.text = some x.scores := by
  intro rows
  induction rows with
  | nil => intro i x hx; simp [classifyAux] at hx
  | cons r rs ih =>
    intro i x hx
    simp only [classifyAux] at hx
    cases hb : pyBlank r.text with
    | true => rw [hb] at hx; simp only [if_true] at hx; exact ih (i + 1) x hx
    | false =>
      rw [hb] at hx
      simp only [Bool.false_eq_true, if_false] at hx
      cases hc : clf i r.text with
      | none => rw [hc] at hx; exact ih (i + 1) x hx
      | some m =>
        rw [hc] at hx
        rcases List.mem_cons.mp hx with he | hm
        · exact ⟨i, by rw [he]; exact hc⟩
        · exact ih (i + 1) x hm

theorem classifyAux_empty_of_bad (clf : Clf) :
    ∀ (rows : List Row) (i : Nat),
      (∀ (j : Nat) (hj : j < rows.length), pyBlank (rows.get ⟨j, hj⟩).text = true ∨
        clf (i + j) ((rows.get ⟨j, hj⟩).text) = none) →
      (classifyAux clf i rows).1 = [] := by
  intro rows
  induction rows with
  | nil => intro i _; rfl
  | cons r rs ih =>
    intro i h
    have htail : (classifyAux clf (i + 1) rs).1 = [] := by
      apply ih
      intro j hj
      have := h (j + 1) (by simp; omega)
      simp only [List.get] at this
      have harith : i + (j + 1) = (i + 1) + j := by omega
      rw [harith] at this
      exact this
    have hhead := h 0 (by simp)
    simp only [List.get] at hhead
    rw [Nat.add_zero] at hhead
    simp only [classifyAux]
    rcases hhead with hb | hc
    · rw [hb]; simp only [if_true]; exact htail
    · cases hb : pyBlank r.text with
      | true => simp only [if_true]; exact htail
      | false => simp only [Bool.false_eq_true, if_false, hc]; exact htail

theorem deriveAll_ok_texts :
    ∀ (scored : List Scored) (qa : List (List Char × Flags)), deriveAll scored = .ok qa →
      ∀ q ∈ qa, ∃ x ∈ scored, x.text = q.1 := by
  intro scored
  induction scored with
  | nil =>
    intro qa h q hq
    simp only [deriveAll] at h
    cases h
    simp at hq
  | cons x xs ih =>
    intro qa h q hq
    simp only [deriveAll] at h
    cases hd : deriveChecked x.text x.scores with
    | error e => rw [hd] at h; cases h
    | ok f =>
      rw [hd] at h
      cases ht : deriveAll xs with
      | error e => rw [ht] at h; cases h
      | ok rest =>
        rw [ht] at h
        cases h
        rcases List.mem_cons.mp hq with he | hm
        · exact ⟨x, List.mem_cons_self _ _, by rw [he]⟩
        · rcases ih rest ht q hm with ⟨y, hy, hyt⟩
          exact ⟨y, List.mem_cons_of_mem _ hy, hyt⟩

theorem deriveAll_error_of_all :
    ∀ (scored : List Scored), scored ≠ [] →
      (∀ x ∈ scored, deriveChecked x.text x.scores = .error ()) →
      deriveAll scored = .error () := by
  intro scored hne hall
  cases scored with
  | nil => exact absurd rfl hne
  | cons x xs =>
    have hx := hall x (List.mem_cons_self _ _)
    simp [deriveAll, hx]

theorem processClassifications_error_of_all (scored : List Scored) (rows : List Row)
    (hall : ∀ x ∈ scored, deriveChecked x.text x.scores = .error ()) :
    processClassifications scored rows = .error () := by
  cases scored with
  | nil => rfl
  | cons x xs =>
    have herr := deriveAll_error_of_all (x :: xs) (by simp) hall
    simp [processClassifications, herr]

theorem mergeOnText_mem (left : List Row) (right : List (List Char × Flags)) (r : Row)
    (f : Flags) :
    (r, f) ∈ mergeOnText left right ↔ r ∈ left ∧ ∃ q ∈ right, q.1 = r.text ∧ q.2 = f := by
  simp only [mergeOnText, List.mem_flatMap, List.mem_map, List.mem_filter, beq_iff_eq,
    Prod.mk.injEq]
  constructor
  · rintro ⟨a, ha, q, ⟨hqr, hqt⟩, har, hqf⟩
    subst har
    exact ⟨ha, q, hqr, hqt, hqf⟩
  · rintro ⟨hr, q, hqr, hqt, hqf⟩
    exact ⟨r, hr, q, ⟨hqr, hqt⟩, rfl, hqf⟩

theorem processClassifications_ok_texts (scored : List Scored) (rows : List Row)
    (recs : List LabeledRecord) (h : processClassifications scored rows = .ok recs) :
    ∀ rec ∈ recs, ∃ x ∈ scored, x.text = rec.text := by
  intro rec hrec
  unfold processClassifications at h
  cases hemp : scored.isEmpty with
  | true => rw [hemp] at h; cases h
  | false =>
    rw [hemp] at h
    simp only [Bool.false_eq_true, if_false] at h
    cases hda : deriveAll scored with
    | error e => rw [hda] at h; cases h
    | ok qa =>
      rw [hda] at h
      cases h
      rcases List.mem_map.mp hrec with ⟨p, hp, hrecp⟩
      rcases (mergeOnText_mem rows qa p.1 p.2).mp hp with ⟨hpl, q, hq, hqt, hqf⟩
      rcases deriveAll_ok_texts scored qa hda q hq with ⟨x, hx, hxt⟩
      refine ⟨x, hx, ?_⟩
      rw [hxt, hqt, ← hrecp]

theorem length_filter_map_const (r : Row) (t : List Char) :
    ∀ (l : List (List Char × Flags)),
      ((l.map fun q => (r, q.2)).filter fun p => p.1.text == t).length =
        if r.text == t then l.length else 0 := by
  intro l
  induction l with
  | nil => cases h : r.text == t <;> simp
  | cons q l ih => cases h : r.text == t <;> simp [List.filter_cons, h, ih]

theorem mergeOnText_count (left : List Row) (right : List (List Char × Flags)) (t : List Char) :
    ((mergeOnText left right).filter fun p => p.1.text == t).length =
      (left.filter fun r => r.text == t).length * (right.filter fun q => q.1 == t).length := by
  induction left with
  | nil => simp [mergeOnText]
  | cons r l ih =>
    simp only [mergeOnText, List.flatMap_cons, List.filter_append, List.length_append]
    have hrest : (List.filter (fun p => p.1.text == t)
        (l.flatMap fun rr => List.map (fun q => (rr, q.2))
          (List.filter (fun q => q.1 == rr.text) right))).length =
        (List.filter (fun rr => rr.text == t) l).length *
          (List.filter (fun q => q.1 == t) right).length := ih
    rw [hrest, length_filter_map_const]
    cases h : r.text == t with
    | false => simp [List.filter_cons, h]
    | true =>
      have ht : r.text = t := by simpa using h
      subst ht
      simp [List.filter_cons, h]
      ring

/-- C6: rows with empty or whitespace-only text are skipped: the classifier
result on blank texts is irrelevant to the output (it is never called on
them), no blank row is dropped with an error log entry, blank rows never
appear among the scored rows, and they never appear in the output
LabeledRecords of a chunk. -/
theorem blank_rows_skipped (clf clfB : Clf) (i : Nat) (rows : List Row)
    (hagree : ∀ j t, pyBlank t = false → clf j t = clfB j t) :
    classifyAux clf i rows = classifyAux clfB i rows ∧
    (∀ x ∈ (classifyAux clf i rows).1, pyBlank x.text = false) ∧
    (∀ e ∈ (classifyAux clf i rows).2, pyBlank e.2 = false) ∧
    (∀ recs, processClassifications (classifyAux clf i rows).1 rows = .ok recs →
      ∀ rec ∈ recs, pyBlank rec.text = false) := by
  refine ⟨classifyAux_agree clf clfB hagree i rows,
    fun x hx => classifyAux_scored_nonblank clf i rows x hx,
    fun e he => classifyAux_log_nonblank clf i rows e he,
    fun recs hok rec hrec => ?_⟩
  rcases processClassifications_ok_texts _ _ _ hok rec hrec with ⟨x, hx, hxt⟩
  rw [← hxt]
  exact classifyAux_scored_nonblank clf i rows x hx

theorem blank_rows_skipped_witness :
    classifyAux (fun _ _ => none) 0 [⟨(" ".toList), ("p"), ("s")⟩] =
      classifyAux (fun _ t => if pyBlank t then some (fun _ => some (0 : ℚ)) else none) 0
        [⟨(" ".toList), ("p"), ("s")⟩] :=
  (blank_rows_skipped (fun _ _ => none)
    (fun _ t => if pyBlank t then some (fun _ => some (0 : ℚ)) else none) 0
    [⟨(" ".toList), ("p"), ("s")⟩] (fun j t h => by simp [h])).1

/-- C7: a classifier failure on one row is recovered locally: the failed row
is logged with its index and text and dropped, while every other row of the
chunk is classified exactly as it would be without the failed row, and any
later row whose call succeeds is in the scored output. -/
theorem classifier_failure_local (clf : Clf) (i : Nat) (xs : List Row) (y : Row)
    (ys : List Row) (hnb : pyBlank y.text = false)
    (hfail : clf (i + xs.length) y.text = none) :
    (classifyAux clf i (xs ++ y :: ys)).1 =
      (classifyAux clf i xs).1 ++ (classifyAux clf (i + xs.length + 1) ys).1 ∧
    (i + xs.length, y.text) ∈ (classifyAux clf i (xs ++ y :: ys)).2 ∧
    (∀ (j : Nat) (hj : j < ys.length) (m : String → Option ℚ),
      pyBlank (ys.get ⟨j, hj⟩).text = false →
      clf (i + xs.length + 1 + j) ((ys.get ⟨j, hj⟩).text) = some m →
      Scored.mk (ys.get ⟨j, hj⟩).text m ∈ (classifyAux clf i (xs ++ y :: ys)).1) := by
  have happ := classifyAux_append clf xs (y :: ys) i
  have hstep : classifyAux clf (i + xs.length) (y :: ys) =
      ((classifyAux clf (i + xs.length + 1) ys).1,
       (i + xs.length, y.text) :: (classifyAux clf (i + xs.length + 1) ys).2) := by
    simp only [classifyAux, hnb, Bool.false_eq_true, if_false, hfail]
  refine ⟨?_, ?_, ?_⟩
  · rw [happ, hstep]
  · rw [happ, hstep]
    exact List.mem_append_right _ (List.mem_cons_self _ _)
  · intro j hj m hbj hcj
    have hmem := classifyAux_mem_of_success clf ys (i + xs.length + 1) j hj m hbj hcj
    rw [happ, hstep]
    exact List.mem_append_right _ hmem

theorem classifier_failure_local_witness :
    (classifyAux (fun j _ => if j = 0 then none else some (fun _ => some (0 : ℚ))) 0
        [⟨("bad".toList), ("p"), ("s")⟩, ⟨("ok".toList), ("p"), ("s")⟩]).1 =
      (classifyAux (fun j _ => if j = 0 then none else some (fun _ => some (0 : ℚ))) 0 []).1 ++
        (classifyAux (fun j _ => if j = 0 then none else some (fun _ => some (0 : ℚ))) 1
          [⟨("ok".toList), ("p"), ("s")⟩]).1 ∧
    ((0 : Nat), ("bad".toList)) ∈
      (classifyAux (fun j _ => if j = 0 then none else some (fun _ => some (0 : ℚ))) 0
        [⟨("bad".toList), ("p"), ("s")⟩, ⟨("ok".toList), ("p"), ("s")⟩]).2 :=
  ⟨(classifier_failure_local (fun j _ => if j = 0 then none else some (fun _ => some (0 : ℚ)))
      0 [] ⟨("bad".toList), ("p"), ("s")⟩ [⟨("ok".toList), ("p"), ("s")⟩] (by decide) rfl).1,
   (classifier_failure_local (fun j _ => if j = 0 then none else some (fun _ => some (0 : ℚ)))
      0 [] ⟨("bad".toList), ("p"), ("s")⟩ [⟨("ok".toList), ("p"), ("s")⟩] (by decide) rfl).2.1⟩

/-- C8: the merge joins derived flags back onto the identifying columns by
equality on response text: a pair (row, flags) is in the merge exactly when
the row is an input row and some derived row has the same text and those
flags, and the number of merged rows with a given text is the product of the
matching left and right row counts, one joined row per matching pair. -/
theorem merge_join_on_text :
    (∀ (left : List Row) (right : List (List Char × Flags)) (r : Row) (f : Flags),
      (r, f) ∈ mergeOnText left right ↔
        r ∈ left ∧ ∃ q ∈ right, q.1 = r.text ∧ q.2 = f) ∧
    (∀ (left : List Row) (right : List (List Char × Flags)) (t : List Char),
      ((mergeOnText left right).filter fun p => p.1.text == t).length =
        (left.filter fun r => r.text == t).length *
          (right.filter fun q => q.1 == t).length) :=
  ⟨mergeOnText_mem, mergeOnText_count⟩

/-- C9: when every score mapping the classifier returns lacks a label that
the threshold table references, the Flag Deriver never produces a FlagSet
(each derivation fails on the missing column), and the chunked run aborts
with no output written. -/
theorem missing_label_aborts (clf : Clf) (lbl : String) (rows : List Row) (n : Nat)
    (hmem : lbl ∈ referencedLabels)
    (hlack : ∀ j t m, clf j t = some m → m lbl = none)
    (hrows : rows ≠ []) :
    (∀ (t : List Char) (m : String → Option ℚ), (∃ j, clf j t = some m) →
      ∀ f : Flags, deriveChecked t m ≠ .ok f) ∧
    runInChunks clf rows n = ([], true) := by
  have herr : ∀ (t : List Char) (m : String → Option ℚ), (∃ j, clf j t = some m) →
      deriveChecked t m = .error () := by
    rintro t m ⟨j, hj⟩
    have hnone := hlack j t m hj
    unfold deriveChecked
    rw [if_neg]
    intro hall
    rw [List.all_eq_true] at hall
    have hlbl := hall lbl hmem
    rw [hnone] at hlbl
    simp at hlbl
  constructor
  · intro t m hex f hc
    rw [herr t m hex] at hc
    cases hc
  · cases rows with
    | nil => exact absurd rfl hrows
    | cons r rs =>
      show runChunksAux clf 0 (chunksOf n (r :: rs)) = ([], true)
      rw [chunksOf]
      have hproc : processClassifications
          (classifyAux clf 0 (r :: rs.take (n - 1))).1 (r :: rs.take (n - 1)) = .error () := by
        apply processClassifications_error_of_all
        intro x hx
        rcases classifyAux_scored_from_clf clf _ 0 x hx with ⟨j, hj⟩
        exact herr x.text x.scores ⟨j, hj⟩
      simp [runChunksAux, hproc]

theorem missing_label_aborts_witness :
    runInChunks (fun _ _ => some (fun _ => none)) [⟨("hi".toList), ("p"), ("s")⟩] 5 =
      ([], true) :=
  (missing_label_aborts (fun _ _ => some (fun _ => none)) ("delay")
    [⟨("hi".toList), ("p"), ("s")⟩] 5 (by decide)
    (fun j t m h => by injection h with h2; rw [← h2]) (by simp)).2

/-- C10: a chunk in which no row yields a score mapping, every row being
blank or every classifier call failing, does not produce an empty output:
processing it fails (the empty score table makes the first column read
raise), and the run aborts there, saving nothing from that chunk on. -/
theorem empty_chunk_errors (clf : Clf) (i : Nat) (c : List Row) (cs : List (List Row))
    (h : ∀ (j : Nat) (hj : j < c.length), pyBlank (c.get ⟨j, hj⟩).text = true ∨
      clf (i + j) ((c.get ⟨j, hj⟩).text) = none) :
    processClassifications (classifyAux clf i c).1 c = .error () ∧
    runChunksAux clf i (c :: cs) = ([], true) := by
  have hempty : (classifyAux clf i c).1 = [] := classifyAux_empty_of_bad clf c i h
  have hproc : processClassifications (classifyAux clf i c).1 c = .error () := by
    rw [hempty]; rfl
  exact ⟨hproc, by simp [runChunksAux, hproc]⟩

theorem empty_chunk_errors_witness :
    processClassifications
        (classifyAux (fun _ _ => none) 0 [⟨("x".toList), ("p"), ("s")⟩]).1
        [⟨("x".toList), ("p"), ("s")⟩] = .error () ∧
    runChunksAux (fun _ _ => none) 0 [[⟨("x".toList), ("p"), ("s")⟩]] = ([], true) :=
  empty_chunk_errors (fun _ _ => none) 0 [⟨("x".toList), ("p"), ("s")⟩] []
    (fun _ _ => Or.inr rfl)

end NPS
